import Mathlib

/-!
Shallow embedding of the resilience core of the chiliz-mcp repository:
the retrying executor and error taxonomy (`ErrorHandler`, `ChilizMCPError`),
the circuit breaker, the fixed-window rate limiter, the TTL cache manager,
and the WebSocket subscription provider.  Timestamps are modelled as `Int`
milliseconds and passed explicitly where the source reads `Date.now()`;
asynchronous operations become explicit outcome functions.
-/

/-! ## Error taxonomy (`src/errors/chiliz-error.ts`) -/

/-- Diagnostic context threaded through retry and error wrapping
(`ErrorContext` in `error-handler`). -/
structure ErrorContext where
  operation : String
  timestamp : Int
  metadata : List (String × String)
deriving Repr, DecidableEq

/-- Value stored in an error's context map (strings or numbers). -/
inductive CtxVal
  | str (s : String)
  | num (n : Int)
deriving Repr, DecidableEq

/-- The normalized error shape (`ChilizMCPError`): message, string code,
HTTP-like status code, retryable flag and context map.
`isRateLimitInstance` records whether the value was constructed through the
`RateLimitError` subclass, whose extra `retryAfter` field carries the
retry-after hint in seconds (`none` when absent). -/
structure ChilizMCPError where
  message : String
  code : String
  statusCode : Nat
  isRetryable : Bool
  context : List (String × CtxVal)
  isRateLimitInstance : Bool := false
  retryAfter : Option Nat := none
deriving Repr, DecidableEq

/-- A raw JavaScript error value as seen by the error handler: an
already-classified `ChilizMCPError`, a plain `Error` (name and message), or
a thrown non-`Error` value rendered by `String(...)`. -/
inductive JsError
  | classified (e : ChilizMCPError)
  | plainError (name message : String)
  | nonError (rendered : String)
deriving Repr, DecidableEq

/-! ## Retry executor (`ErrorHandler` in the source) -/

/-- Retry policy (`RetryConfig`).  The backoff multiplier is a JS number,
modelled as a rational. -/
structure RetryConfig where
  maxRetries : Nat
  baseDelayMs : Nat
  maxDelayMs : Nat
  backoffMultiplier : ℚ
  retryableErrors : List String
deriving Repr, DecidableEq

/-- `ErrorHandler.DEFAULT_RETRY_CONFIG`. -/
def DEFAULT_RETRY_CONFIG : RetryConfig :=
  { maxRetries := 3
    baseDelayMs := 1000
    maxDelayMs := 30000
    backoffMultiplier := 2
    retryableErrors :=
      ["NETWORK_ERROR", "RPC_ERROR", "TIMEOUT_ERROR", "RATE_LIMIT_ERROR", "API_ERROR"] }

/-- Boolean test that `needle` occurs at the start of `hay`
(the character-list core of JS `String.prototype.startsWith`). -/
def leadsWith : List Char → List Char → Bool
  | [], _ => true
  | _ :: _, [] => false
  | a :: as, b :: bs => a == b && leadsWith as bs

/-- Boolean substring test, JS `hay.includes(needle)`. -/
def strContains (hay needle : String) : Bool :=
  (List.range (hay.data.length + 1)).any (fun i => leadsWith needle.data (hay.data.drop i))

/-- ASCII lowercasing of a string, character by character
(JS `String.prototype.toLowerCase` on the messages involved here). -/
def lowerStr (s : String) : String :=
  ⟨s.data.map Char.toLower⟩

/-- `ErrorHandler.isRetryableError`: a classified error is retryable when its
own flag is set and its code is in the policy's retryable set; a plain
`Error` is retryable when its lowercased message contains one of five
network-ish fragments; anything else is not retryable. -/
def isRetryableError (e : JsError) (c : RetryConfig) : Bool :=
  match e with
  | .classified err => err.isRetryable && c.retryableErrors.contains err.code
  | .plainError _ msg =>
      let m := lowerStr msg
      strContains m "network" || strContains m "timeout" ||
      strContains m "econnrefused" || strContains m "enotfound" ||
      strContains m "etimedout"
  | .nonError _ => false

/-- `ErrorHandler.wrapError`: already-classified errors pass through
unchanged; other errors are wrapped with code `UNKNOWN_ERROR`, status 500,
`isRetryable = false`, the message preserved, and diagnostic context. -/
def wrapError (e : JsError) (ctx : ErrorContext) : ChilizMCPError :=
  match e with
  | .classified err => err
  | .plainError name msg =>
      { message := msg
        code := "UNKNOWN_ERROR"
        statusCode := 500
        isRetryable := false
        context :=
          [("operation", .str ctx.operation), ("timestamp", .num ctx.timestamp),
           ("originalError", .str name)]
            ++ ctx.metadata.map (fun p => (p.1, CtxVal.str p.2)) }
  | .nonError s =>
      { message := s
        code := "UNKNOWN_ERROR"
        statusCode := 500
        isRetryable := false
        context :=
          [("operation", .str ctx.operation), ("timestamp", .num ctx.timestamp)]
            ++ ctx.metadata.map (fun p => (p.1, CtxVal.str p.2)) }

/-- The retry-after hint used by `ErrorHandler.calculateDelay`: present
exactly when the error is a `RateLimitError` instance whose `retryAfter`
field is truthy (defined and nonzero). -/
def rateLimitHint (e : JsError) : Option Nat :=
  match e with
  | .classified err =>
      if err.isRateLimitInstance then
        match err.retryAfter with
        | some h => if h = 0 then none else some h
        | none => none
      else none
  | _ => none

/-- Exponential-backoff part of `ErrorHandler.calculateDelay`:
`floor (min (baseDelayMs * multiplier^(attempt-1) * (1 + jitter/10)) maxDelayMs)`
where `jitterRand` is the `Math.random()` sample in `[0, 1)`. -/
def backoffDelay (attempt : Nat) (c : RetryConfig) (jitterRand : ℚ) : Int :=
  let exponentialDelay : ℚ := (c.baseDelayMs : ℚ) * c.backoffMultiplier ^ (attempt - 1)
  let jitter : ℚ := jitterRand * (1 / 10) * exponentialDelay
  ⌊min (exponentialDelay + jitter) (c.maxDelayMs : ℚ)⌋

/-- `ErrorHandler.calculateDelay`: a rate-limit retry-after hint (seconds) is
used verbatim, converted to milliseconds; otherwise exponential backoff with
jitter, capped at `maxDelayMs`. -/
def calculateDelay (attempt : Nat) (c : RetryConfig) (e : JsError) (jitterRand : ℚ) : Int :=
  match rateLimitHint e with
  | some h => (h : Int) * 1000
  | none => backoffDelay attempt c jitterRand

/-- Loop of `ErrorHandler.withRetry`.  `op i` is the outcome of the `i`-th
invocation of the operation (0-based); `attempt` is the source's mutable
counter before the current iteration; `fuel` equals
`maxRetries + 1 - attempt`, so running out of fuel is exactly the source's
loop-guard exit, whose trailing dead-code `throw wrapError(lastError!)` is
the zero-fuel branch (`lastError` starts as `null`).  Returns the number of
invocations performed together with the result. -/
def withRetryGo {α : Type} (op : Nat → Except JsError α) (ctx : ErrorContext)
    (c : RetryConfig) : Nat → Nat → Nat → Option JsError → Nat × Except ChilizMCPError α
  | 0, _, calls, lastError =>
      (calls, .error (wrapError (lastError.getD (.nonError "null")) ctx))
  | fuel + 1, attempt, calls, _ =>
      match op calls with
      | .ok v => (calls + 1, .ok v)
      | .error e =>
          if isRetryableError e c = true ∧ attempt + 1 ≤ c.maxRetries then
            withRetryGo op ctx c fuel (attempt + 1) (calls + 1) (some e)
          else
            (calls + 1, .error (wrapError e ctx))

/-- `ErrorHandler.withRetry`, entered with `attempt = 0`. -/
def withRetry {α : Type} (op : Nat → Except JsError α) (ctx : ErrorContext)
    (c : RetryConfig) : Nat × Except ChilizMCPError α :=
  withRetryGo op ctx c (c.maxRetries + 1) 0 0 none

/-! ### Retry lemmas -/

/-- Running the retry loop over an operation that fails retryably on every
invocation performs exactly `fuel` further invocations and then propagates
the wrapped final error. -/
theorem withRetryGo_allFail {α : Type} (op : Nat → Except JsError α) (err : Nat → JsError)
    (ctx : ErrorContext) (c : RetryConfig)
    (hop : ∀ i, op i = .error (err i))
    (hr : ∀ i, isRetryableError (err i) c = true) :
    ∀ fuel attempt calls lastError, attempt + fuel = c.maxRetries + 1 → 1 ≤ fuel →
      withRetryGo op ctx c fuel attempt calls lastError =
        (calls + fuel, .error (wrapError (err (calls + fuel - 1)) ctx)) := by
  intro fuel
  induction fuel with
  | zero => intro attempt calls lastError _ h1; omega
  | succ f ih =>
      intro attempt calls lastError hsum _
      simp only [withRetryGo, hop]
      by_cases hf : 1 ≤ f
      · rw [if_pos ⟨hr calls, by omega⟩]
        rw [ih (attempt + 1) (calls + 1) (some (err calls)) (by omega) hf]
        have h1 : calls + 1 + f = calls + (f + 1) := by omega
        rw [h1]
      · have hf0 : f = 0 := by omega
        subst hf0
        rw [if_neg (fun hcon => absurd hcon.2 (by omega))]
        simp

/-- An operation whose first failure is not retryable is invoked exactly once
and its wrapped error propagates. -/
theorem withRetry_notRetryable {α : Type} (op : Nat → Except JsError α) (e : JsError)
    (ctx : ErrorContext) (c : RetryConfig)
    (hop : op 0 = .error e) (hr : isRetryableError e c = false) :
    withRetry op ctx c = (1, .error (wrapError e ctx)) := by
  show withRetryGo op ctx c (c.maxRetries + 1) 0 0 none = _
  simp only [withRetryGo, hop]
  rw [if_neg (fun hcon => by simp [hr] at hcon)]

/-- Claim C1: for every retry policy with `maxRetries = N` and every
operation that fails on every attempt with a retryable classified error
(`isRetryable = true` and code in the policy's retryable set), `withRetry`
invokes the operation exactly `N + 1` times and then propagates the final
classified error unchanged. -/
theorem withRetry_retryable_exhausts {α : Type} (op : Nat → Except JsError α)
    (err : Nat → ChilizMCPError) (ctx : ErrorContext) (c : RetryConfig)
    (hop : ∀ i, op i = .error (.classified (err i)))
    (hretry : ∀ i, (err i).isRetryable = true)
    (hcode : ∀ i, c.retryableErrors.contains (err i).code = true) :
    withRetry op ctx c = (c.maxRetries + 1, .error (err c.maxRetries)) := by
  have h := withRetryGo_allFail op (fun i => .classified (err i)) ctx c hop
    (fun i => by
      simp only [isRetryableError, hretry i, hcode i, Bool.and_self])
    (c.maxRetries + 1) 0 0 none (by omega) (by omega)
  simpa [withRetry, wrapError] using h

/-- Witness for C1: the default policy (`maxRetries = 3`) against an
always-failing retryable RPC error performs 4 invocations. -/
theorem withRetry_retryable_exhausts_witness :
    withRetry (α := Nat) (fun _ => .error (.classified
        { message := "rpc down", code := "RPC_ERROR", statusCode := 502,
          isRetryable := true, context := [] }))
      { operation := "getBalance", timestamp := 0, metadata := [] }
      DEFAULT_RETRY_CONFIG =
      (4, .error
        { message := "rpc down", code := "RPC_ERROR", statusCode := 502,
          isRetryable := true, context := [] }) := by
  have h := withRetry_retryable_exhausts (α := Nat)
    (fun _ => .error (.classified
      { message := "rpc down", code := "RPC_ERROR", statusCode := 502,
        isRetryable := true, context := [] }))
    (fun _ =>
      { message := "rpc down", code := "RPC_ERROR", statusCode := 502,
        isRetryable := true, context := [] })
    { operation := "getBalance", timestamp := 0, metadata := [] }
    DEFAULT_RETRY_CONFIG
    (fun _ => rfl) (fun _ => rfl)
    (fun _ => by
      show DEFAULT_RETRY_CONFIG.retryableErrors.contains "RPC_ERROR" = true
      decide)
  exact h

/-- Claim C6: ignoring jitter, the retry delay for attempt `k` equals
`min (baseDelayMs * backoffMultiplier^(k-1)) maxDelayMs`; when the error is a
rate-limit error carrying a retry-after hint, the delay is exactly the hint
converted to milliseconds, in preference to the backoff formula and
regardless of the jitter sample. -/
theorem calculateDelay_spec (k : Nat) (_hk : 1 ≤ k) (c : RetryConfig) (m : Nat)
    (hmul : c.backoffMultiplier = (m : ℚ)) (e : JsError) (hhint : rateLimitHint e = none)
    (err : ChilizMCPError) (h : Nat) (hrl : err.isRateLimitInstance = true)
    (hra : err.retryAfter = some h) (hnz : h ≠ 0) :
    calculateDelay k c e 0 = ((min (c.baseDelayMs * m ^ (k - 1)) c.maxDelayMs : Nat) : Int) ∧
    ∀ j : ℚ, calculateDelay k c (.classified err) j = (h : Int) * 1000 := by
  constructor
  · simp only [calculateDelay, hhint, backoffDelay, hmul]
    have hz : (0 : ℚ) * (1 / 10) * ((c.baseDelayMs : ℚ) * (m : ℚ) ^ (k - 1)) = 0 := by ring
    rw [hz, add_zero]
    have hcast : ((c.baseDelayMs : ℚ) * (m : ℚ) ^ (k - 1)) =
        ((c.baseDelayMs * m ^ (k - 1) : Nat) : ℚ) := by push_cast; ring
    rw [hcast, ← Nat.cast_min, Int.floor_natCast]
  · intro j
    simp [calculateDelay, rateLimitHint, hrl, hra, hnz]

/-- Witness for C6: with the default policy the first retry delay is
`min (1000 * 2^0) 30000 = 1000` ms, and a rate-limit error with
`retryAfter = 7` yields 7000 ms even with a nonzero jitter sample. -/
theorem calculateDelay_spec_witness :
    calculateDelay 1 DEFAULT_RETRY_CONFIG (.plainError "Error" "boom") 0 =
      ((min (1000 * 2 ^ 0) 30000 : Nat) : Int) ∧
    calculateDelay 1 DEFAULT_RETRY_CONFIG
      (.classified { message := "rate limited", code := "RATE_LIMIT_ERROR", statusCode := 429,
                     isRetryable := true, context := [], isRateLimitInstance := true,
                     retryAfter := some 7 }) (1 / 2) = (7 : Int) * 1000 := by
  have h := calculateDelay_spec 1 (by norm_num) DEFAULT_RETRY_CONFIG 2
    (by norm_num [DEFAULT_RETRY_CONFIG]) (.plainError "Error" "boom") rfl
    { message := "rate limited", code := "RATE_LIMIT_ERROR", statusCode := 429,
      isRetryable := true, context := [], isRateLimitInstance := true, retryAfter := some 7 }
    7 rfl rfl (by norm_num)
  exact ⟨h.1, h.2 (1 / 2)⟩

/-- Claim C10: `withRetry` retries a raw unclassified `Error` whose lowercase
message contains `network`, `timeout`, `econnrefused`, `enotfound` or
`etimedout`, attempting it `maxRetries + 1` times, yet the error that finally
propagates is wrapped with code `UNKNOWN_ERROR` and `isRetryable = false`;
every other unclassified error — a plain `Error` matching no fragment, or a
non-`Error` thrown value — is attempted exactly once and never retried. -/
theorem withRetry_unclassified_spec {α : Type} (ctx : ErrorContext) (c : RetryConfig)
    (name msg : String)
    (hfrag : (strContains (lowerStr msg) "network" || strContains (lowerStr msg) "timeout" ||
              strContains (lowerStr msg) "econnrefused" || strContains (lowerStr msg) "enotfound" ||
              strContains (lowerStr msg) "etimedout") = true) :
    (withRetry (α := α) (fun _ => .error (.plainError name msg)) ctx c =
       (c.maxRetries + 1, .error (wrapError (.plainError name msg) ctx)) ∧
     (wrapError (.plainError name msg) ctx).code = "UNKNOWN_ERROR" ∧
     (wrapError (.plainError name msg) ctx).isRetryable = false) ∧
    (∀ name' msg', isRetryableError (.plainError name' msg') c = false →
       withRetry (α := α) (fun _ => .error (.plainError name' msg')) ctx c =
         (1, .error (wrapError (.plainError name' msg') ctx))) ∧
    (∀ s, withRetry (α := α) (fun _ => .error (.nonError s)) ctx c =
       (1, .error (wrapError (.nonError s) ctx))) := by
  refine ⟨⟨?_, rfl, rfl⟩, ?_, ?_⟩
  · have h := withRetryGo_allFail (α := α) (fun _ => .error (.plainError name msg))
      (fun _ => .plainError name msg) ctx c (fun _ => rfl)
      (fun _ => by simpa [isRetryableError] using hfrag)
      (c.maxRetries + 1) 0 0 none (by omega) (by omega)
    simpa [withRetry] using h
  · intro name' msg' hnr
    exact withRetry_notRetryable _ _ ctx c rfl hnr
  · intro s
    exact withRetry_notRetryable _ _ ctx c rfl (by simp [isRetryableError])

/-- Witness for C10: a raw `ECONNREFUSED` error under the default policy is
attempted 4 times and propagates as a non-retryable `UNKNOWN_ERROR`. -/
theorem withRetry_unclassified_spec_witness :
    withRetry (α := Nat)
      (fun _ => .error (.plainError "Error" "connect ECONNREFUSED 127.0.0.1:8545"))
      { operation := "rpc", timestamp := 0, metadata := [] } DEFAULT_RETRY_CONFIG =
      (4, .error (wrapError (.plainError "Error" "connect ECONNREFUSED 127.0.0.1:8545")
        { operation := "rpc", timestamp := 0, metadata := [] })) := by
  exact (withRetry_unclassified_spec (α := Nat)
    { operation := "rpc", timestamp := 0, metadata := [] } DEFAULT_RETRY_CONFIG
    "Error" "connect ECONNREFUSED 127.0.0.1:8545" (by decide)).1.1

/-! ## Circuit breaker (`ErrorHandler.createCircuitBreaker`) -/

/-- Closure state captured by `createCircuitBreaker`:
`failures`, `lastFailureTime`, `isOpen`. -/
structure BreakerState where
  failures : Nat
  lastFailureTime : Int
  isOpen : Bool
deriving Repr, DecidableEq

/-- Fresh guard state: `failures = 0`, `lastFailureTime = 0`, closed. -/
def initialBreakerState : BreakerState :=
  { failures := 0, lastFailureTime := 0, isOpen := false }

/-- Result of one guarded call: the new closure state, whether the wrapped
operation was actually invoked, and the outcome. -/
structure BreakerOutcome (α : Type) where
  state : BreakerState
  invoked : Bool
  result : Except ChilizMCPError α
deriving Repr

/-- The dedicated breaker-open error the guard synthesizes while open:
code `CIRCUIT_BREAKER_OPEN`, status 503, retryable, with the remaining
cooldown under `resetIn` in its context. -/
def breakerOpenError (ctx : ErrorContext) (resetIn : Int) : ChilizMCPError :=
  { message := "Circuit breaker is open for \"" ++ ctx.operation ++ "\". Try again later."
    code := "CIRCUIT_BREAKER_OPEN"
    statusCode := 503
    isRetryable := true
    context := [("resetIn", .num resetIn)] }

/-- One call through the guard returned by `createCircuitBreaker maxFailures
resetTimeoutMs`.  `now` is `Date.now()` at the call; `opResult` is what the
wrapped operation would produce if invoked.  While open and still within
`resetTimeoutMs` of the last failure the guard throws `breakerOpenError`
without invoking the operation; once the cooldown has elapsed it resets to
closed (`failures := 0`) and attempts the operation normally.  A success
resets `failures`; a failure increments it, stamps `lastFailureTime`, opens
the breaker when `failures ≥ maxFailures`, and rethrows the wrapped error. -/
def circuitBreakerCall {α : Type} (maxFailures : Nat) (resetTimeoutMs : Int)
    (ctx : ErrorContext) (now : Int) (opResult : Except JsError α)
    (st : BreakerState) : BreakerOutcome α :=
  let attempt : BreakerState → BreakerOutcome α := fun s =>
    match opResult with
    | .ok v => ⟨{ s with failures := 0 }, true, .ok v⟩
    | .error e =>
        let failures' := s.failures + 1
        ⟨{ failures := failures'
           lastFailureTime := now
           isOpen := if failures' ≥ maxFailures then true else s.isOpen },
         true, .error (wrapError e ctx)⟩
  if st.isOpen then
    let timeSinceLastFailure := now - st.lastFailureTime
    if timeSinceLastFailure < resetTimeoutMs then
      ⟨st, false, .error (breakerOpenError ctx (resetTimeoutMs - timeSinceLastFailure))⟩
    else
      attempt { st with isOpen := false, failures := 0 }
  else
    attempt st

/-- A failing call in the closed state increments the failure count, stamps
the failure time, and opens the breaker exactly when the count reaches
`maxFailures`. -/
theorem circuitBreakerCall_closed_fail {α : Type} (maxFailures : Nat) (resetTimeoutMs : Int)
    (ctx : ErrorContext) (e : JsError) (now : Int) (c : Nat) (w : Int) :
    circuitBreakerCall (α := α) maxFailures resetTimeoutMs ctx now (.error e)
        { failures := c, lastFailureTime := w, isOpen := false } =
      ⟨{ failures := c + 1, lastFailureTime := now,
         isOpen := decide (maxFailures ≤ c + 1) }, true, .error (wrapError e ctx)⟩ := by
  simp only [circuitBreakerCall]
  rw [if_neg (by simp)]
  have hif : (if c + 1 ≥ maxFailures then true else false) = decide (maxFailures ≤ c + 1) := by
    by_cases hof : maxFailures ≤ c + 1 <;> simp [ge_iff_le, hof]
  simp only [hif]

/-- Folding a sequence of failing calls (call times `ts`, every invocation
failing with `e`) through a guard. -/
def runBreakerFailures (maxFailures : Nat) (resetTimeoutMs : Int) (ctx : ErrorContext)
    (e : JsError) (ts : List Int) (st : BreakerState) : BreakerState :=
  ts.foldl
    (fun s t => (circuitBreakerCall (α := Unit) maxFailures resetTimeoutMs ctx t (.error e) s).state)
    st

/-- Consecutive failures from a closed state accumulate: starting with
`failures = c` and at most `maxFailures - c` further failing calls, the count
adds up, the last failure time becomes the last call time, and the breaker
ends open exactly when the count reaches `maxFailures`. -/
theorem runBreakerFailures_closed (maxFailures : Nat) (resetTimeoutMs : Int)
    (ctx : ErrorContext) (e : JsError) :
    ∀ (ts : List Int) (c : Nat) (w : Int), ts ≠ [] → c + ts.length ≤ maxFailures →
      runBreakerFailures maxFailures resetTimeoutMs ctx e ts
          { failures := c, lastFailureTime := w, isOpen := false } =
        { failures := c + ts.length
          lastFailureTime := ts.getLastD w
          isOpen := decide (maxFailures ≤ c + ts.length) } := by
  intro ts
  induction ts with
  | nil => intro c w hne _; exact absurd rfl hne
  | cons t rest ih =>
      intro c w _ hlen
      simp only [List.length_cons] at hlen
      simp only [runBreakerFailures, List.foldl_cons]
      rw [circuitBreakerCall_closed_fail]
      by_cases hrest : rest = []
      · subst hrest
        simp only [List.foldl_nil, List.getLastD_cons, List.getLastD_nil, List.length_cons,
          List.length_nil]
      · have hpos : 1 ≤ rest.length := List.length_pos.mpr hrest
        have hdec : decide (maxFailures ≤ c + 1) = false := by
          simp only [decide_eq_false_iff_not]
          omega
        rw [hdec]
        have h2 := ih (c + 1) t hrest (by omega)
        simp only [runBreakerFailures] at h2
        rw [h2]
        have harith : c + 1 + rest.length = c + (rest.length + 1) := by omega
        simp only [List.getLastD_cons, List.length_cons, harith]

/-- Claim C2: after `maxFailures` consecutive failed calls (made at times
`ts`), every call within `resetTimeoutMs` of the last failure throws the
breaker-open error — code `CIRCUIT_BREAKER_OPEN`, status 503,
`isRetryable = true`, remaining cooldown under `resetIn` in its context —
without invoking the wrapped operation and without changing the state, while
the first call made once `resetTimeoutMs` has elapsed does invoke the
operation. -/
theorem circuitBreaker_fail_fast (maxFailures : Nat) (resetTimeoutMs : Int)
    (ctx : ErrorContext) (e : JsError) (ts : List Int)
    (hne : ts ≠ []) (hlen : ts.length = maxFailures)
    (st : BreakerState)
    (hst : st = runBreakerFailures maxFailures resetTimeoutMs ctx e ts initialBreakerState) :
    (∀ (α : Type) (now : Int) (opResult : Except JsError α),
        now - ts.getLastD 0 < resetTimeoutMs →
        circuitBreakerCall maxFailures resetTimeoutMs ctx now opResult st =
          ⟨st, false, .error (breakerOpenError ctx (resetTimeoutMs - (now - ts.getLastD 0)))⟩) ∧
    (∀ (α : Type) (now : Int) (opResult : Except JsError α),
        resetTimeoutMs ≤ now - ts.getLastD 0 →
        (circuitBreakerCall maxFailures resetTimeoutMs ctx now opResult st).invoked = true) ∧
    (∀ r : Int, (breakerOpenError ctx r).code = "CIRCUIT_BREAKER_OPEN" ∧
        (breakerOpenError ctx r).statusCode = 503 ∧
        (breakerOpenError ctx r).isRetryable = true ∧
        (breakerOpenError ctx r).context = [("resetIn", .num r)]) := by
  have hmax : 1 ≤ maxFailures := by
    have : 1 ≤ ts.length := List.length_pos.mpr hne
    omega
  have hval : st = ⟨maxFailures, ts.getLastD 0, true⟩ := by
    rw [hst]
    have h := runBreakerFailures_closed maxFailures resetTimeoutMs ctx e ts 0 0 hne
      (by omega)
    simpa [initialBreakerState, hlen] using h
  subst hval
  refine ⟨?_, ?_, fun r => ⟨rfl, rfl, rfl, rfl⟩⟩
  · intro α now opResult hwithin
    simp only [circuitBreakerCall]
    rw [if_pos trivial, if_pos hwithin]
  · intro α now opResult helapsed
    simp only [circuitBreakerCall]
    rw [if_pos trivial, if_neg (not_lt.mpr helapsed)]
    cases opResult <;> rfl

/-- Witness for C2: `createCircuitBreaker(2, 1000)` opened by failures at
t=0 and t=10 rejects the call at t=500 with the breaker-open error (490 ms
elapsed, 510 ms cooldown left) without invoking the operation, and invokes
the operation again at t=1500. -/
theorem circuitBreaker_fail_fast_witness :
    (circuitBreakerCall 2 1000 { operation := "rpc", timestamp := 0, metadata := [] }
        500 (.ok (42 : Nat))
        (runBreakerFailures 2 1000 { operation := "rpc", timestamp := 0, metadata := [] }
          (.plainError "Error" "boom") [0, 10] initialBreakerState) =
      ⟨{ failures := 2, lastFailureTime := 10, isOpen := true }, false,
       .error (breakerOpenError { operation := "rpc", timestamp := 0, metadata := [] } 510)⟩) ∧
    (circuitBreakerCall 2 1000 { operation := "rpc", timestamp := 0, metadata := [] }
        1500 (.ok (42 : Nat))
        (runBreakerFailures 2 1000 { operation := "rpc", timestamp := 0, metadata := [] }
          (.plainError "Error" "boom") [0, 10] initialBreakerState)).invoked = true := by
  have h := circuitBreaker_fail_fast 2 1000
    { operation := "rpc", timestamp := 0, metadata := [] } (.plainError "Error" "boom")
    [0, 10] (by simp) rfl _ rfl
  refine ⟨?_, h.2.1 Nat 1500 (.ok 42) (by norm_num)⟩
  have h1 := h.1 Nat 500 (.ok 42) (by norm_num)
  rw [h1]
  norm_num
  rfl

/-- Counterexample to claim C5 as stated: take `maxFailures = 2`,
`resetTimeoutMs = 1000`, the breaker opened by failures at t=0 and t=10.
The post-cooldown call at t=1200 fails, yet the next call at t=1300 — well
within `resetTimeoutMs` of that failure — still invokes the wrapped
operation rather than failing fast: the post-cooldown failure left the
breaker closed with `failures = 1 < maxFailures`, so the breaker did not
re-open immediately. -/
theorem circuitBreaker_no_immediate_reopen :
    (circuitBreakerCall (α := Nat) 2 1000
      { operation := "rpc", timestamp := 0, metadata := [] } 1300 (.ok 5)
      (circuitBreakerCall (α := Nat) 2 1000
        { operation := "rpc", timestamp := 0, metadata := [] } 1200
        (.error (.plainError "Error" "boom"))
        (runBreakerFailures 2 1000 { operation := "rpc", timestamp := 0, metadata := [] }
          (.plainError "Error" "boom") [0, 10] initialBreakerState)).state).invoked
      = true := by
  rfl

/-- Claim C5 (amended): once `resetTimeoutMs` has elapsed since the breaker
opened, the next call transitions the guard back to closed with the failure
count reset to 0 and attempts the operation; if that very attempt fails the
count restarts at 1, so the breaker re-opens immediately exactly when
`maxFailures ≤ 1`: in that case the following call within `resetTimeoutMs`
fails fast without invoking the operation, while for `maxFailures ≥ 2` the
following call again invokes the operation. -/
theorem circuitBreaker_cooldown_reset {α : Type} (maxFailures : Nat) (resetTimeoutMs : Int)
    (ctx : ErrorContext) (e : JsError) (f : Nat) (tl now : Int)
    (helapsed : resetTimeoutMs ≤ now - tl) :
    circuitBreakerCall (α := α) maxFailures resetTimeoutMs ctx now (.error e)
        { failures := f, lastFailureTime := tl, isOpen := true } =
      ⟨{ failures := 1, lastFailureTime := now, isOpen := decide (maxFailures ≤ 1) },
       true, .error (wrapError e ctx)⟩ ∧
    (∀ (now2 : Int) (opResult2 : Except JsError α), now2 - now < resetTimeoutMs →
      (2 ≤ maxFailures →
        (circuitBreakerCall maxFailures resetTimeoutMs ctx now2 opResult2
          { failures := 1, lastFailureTime := now,
            isOpen := decide (maxFailures ≤ 1) }).invoked = true) ∧
      (maxFailures ≤ 1 →
        (circuitBreakerCall maxFailures resetTimeoutMs ctx now2 opResult2
          { failures := 1, lastFailureTime := now,
            isOpen := decide (maxFailures ≤ 1) }).invoked = false)) := by
  constructor
  · simp only [circuitBreakerCall]
    rw [if_pos trivial, if_neg (not_lt.mpr helapsed)]
    have hif : (if 0 + 1 ≥ maxFailures then true else false) = decide (maxFailures ≤ 1) := by
      by_cases hof : maxFailures ≤ 1 <;> simp [ge_iff_le, hof]
    simp only [hif]
  · intro now2 opResult2 hwithin
    constructor
    · intro h2
      have hcl : decide (maxFailures ≤ 1) = false := by
        simp only [decide_eq_false_iff_not]; omega
      simp only [circuitBreakerCall, hcl]
      rw [if_neg (by simp)]
      cases opResult2 <;> rfl
    · intro h1
      have hop : decide (maxFailures ≤ 1) = true := by
        simpa using h1
      simp only [circuitBreakerCall, hop]
      rw [if_pos trivial, if_pos hwithin]

/-- Witness for C5 (amended): `createCircuitBreaker(3, 1000)` open since t=0;
the call at t=1500 invokes and fails, leaving the breaker closed with one
failure, and the call at t=1600 invokes the operation again. -/
theorem circuitBreaker_cooldown_reset_witness :
    circuitBreakerCall (α := Nat) 3 1000 { operation := "op", timestamp := 0, metadata := [] }
        1500 (.error (.plainError "Error" "boom"))
        { failures := 3, lastFailureTime := 0, isOpen := true } =
      ⟨{ failures := 1, lastFailureTime := 1500, isOpen := decide ((3 : Nat) ≤ 1) }, true,
       .error (wrapError (.plainError "Error" "boom")
         { operation := "op", timestamp := 0, metadata := [] })⟩ ∧
    (circuitBreakerCall (α := Nat) 3 1000 { operation := "op", timestamp := 0, metadata := [] }
        1600 (.ok 7)
        { failures := 1, lastFailureTime := 1500,
          isOpen := decide ((3 : Nat) ≤ 1) }).invoked = true := by
  have h := circuitBreaker_cooldown_reset (α := Nat) 3 1000
    { operation := "op", timestamp := 0, metadata := [] } (.plainError "Error" "boom")
    3 0 1500 (by norm_num)
  exact ⟨h.1, (h.2 1600 (.ok 7) (by norm_num)).1 (by norm_num)⟩

/-! ## RateLimiter (`src/utils/rateLimiter.ts`) -/

/-- Per-bucket policy (`RateLimitConfig` in `src/types`). -/
structure RateLimitConfig where
  maxRequests : Nat
  windowMs : Int
deriving Repr, DecidableEq

/-- Per-bucket live window (`RateLimitEntry`). -/
structure RateLimitEntry where
  count : Nat
  resetTime : Int
deriving Repr, DecidableEq

/-- The `RateLimiter` instance state: the `limits` and `configs` maps,
modelled as association lists with unique keys. -/
structure RateLimiterState where
  limits : List (String × RateLimitEntry)
  configs : List (String × RateLimitConfig)
deriving Repr, DecidableEq

/-- `Map.set`: replace the binding for `k`, or append one. -/
def setAssoc {β : Type} (k : String) (v : β) : List (String × β) → List (String × β)
  | [] => [(k, v)]
  | (k', v') :: rest => if k' = k then (k, v) :: rest else (k', v') :: setAssoc k v rest

/-- `RateLimiter.checkLimit` at time `now`: unconfigured buckets always pass;
a missing or expired window is (re)created with `count = 1` and
`resetTime = now + windowMs` and the call passes; a full window rejects
without mutating; otherwise the count increments and the call passes. -/
def checkLimit (name : String) (now : Int) (st : RateLimiterState) :
    Bool × RateLimiterState :=
  match st.configs.lookup name with
  | none => (true, st)
  | some cfg =>
      match st.limits.lookup name with
      | none =>
          (true, { st with limits := setAssoc name ⟨1, now + cfg.windowMs⟩ st.limits })
      | some entry =>
          if now > entry.resetTime then
            (true, { st with limits := setAssoc name ⟨1, now + cfg.windowMs⟩ st.limits })
          else if entry.count ≥ cfg.maxRequests then
            (false, st)
          else
            (true, { st with limits := setAssoc name ⟨entry.count + 1, entry.resetTime⟩ st.limits })

/-- `RateLimiter.getRemainingRequests` at time `now`: `⊤` models the JS
`Infinity` for unconfigured buckets; `Nat` subtraction truncates at zero,
mirroring `Math.max(0, maxRequests - count)`. -/
def getRemainingRequests (name : String) (now : Int) (st : RateLimiterState) : ENat :=
  match st.configs.lookup name with
  | none => ⊤
  | some cfg =>
      match st.limits.lookup name with
      | none => (cfg.maxRequests : ENat)
      | some entry =>
          if now > entry.resetTime then (cfg.maxRequests : ENat)
          else ((cfg.maxRequests - entry.count : Nat) : ENat)

/-- A sequence of `checkLimit` calls at times `ts`, returning the list of
results and the final state. -/
def checkLimitRun (name : String) (ts : List Int) (st : RateLimiterState) :
    List Bool × RateLimiterState :=
  match ts with
  | [] => ([], st)
  | t :: rest =>
      let p := checkLimit name t st
      let q := checkLimitRun name rest p.2
      (p.1 :: q.1, q.2)

/-- A `checkLimit` call inside the live window admits exactly when the count
is still below `maxRequests`, incrementing it in that case. -/
theorem checkLimit_entry (name : String) (cfg : RateLimitConfig) (c : Nat) (r t : Int)
    (hle : t ≤ r) :
    checkLimit name t ⟨[(name, ⟨c, r⟩)], [(name, cfg)]⟩ =
      (decide (c < cfg.maxRequests),
       ⟨[(name, ⟨if c < cfg.maxRequests then c + 1 else c, r⟩)], [(name, cfg)]⟩) := by
  simp only [checkLimit, List.lookup, beq_self_eq_true, if_pos]
  rw [if_neg (not_lt.mpr hle)]
  by_cases hcm : c < cfg.maxRequests
  · rw [if_neg (by omega), if_pos hcm]
    simp [setAssoc, hcm]
  · rw [if_pos (by omega), if_neg hcm]
    simp [decide_eq_false hcm]

/-- A `checkLimit` call after the window has expired rotates it: the call is
admitted and the window restarts with `count = 1`. -/
theorem checkLimit_rotate (name : String) (cfg : RateLimitConfig) (c : Nat) (r t : Int)
    (hgt : r < t) :
    checkLimit name t ⟨[(name, ⟨c, r⟩)], [(name, cfg)]⟩ =
      (true, ⟨[(name, ⟨1, t + cfg.windowMs⟩)], [(name, cfg)]⟩) := by
  simp only [checkLimit, List.lookup, beq_self_eq_true, if_pos]
  rw [if_pos hgt]
  simp [setAssoc]

/-- Within one window, a run of `checkLimit` calls starting from count `c`
admits exactly the calls while the count is below `maxRequests`. -/
theorem checkLimitRun_within (name : String) (cfg : RateLimitConfig) (r : Int) :
    ∀ (ts : List Int) (c : Nat), c ≤ cfg.maxRequests → (∀ t ∈ ts, t ≤ r) →
      checkLimitRun name ts ⟨[(name, ⟨c, r⟩)], [(name, cfg)]⟩ =
        ((List.range ts.length).map (fun i => decide (c + i < cfg.maxRequests)),
         ⟨[(name, ⟨min (c + ts.length) cfg.maxRequests, r⟩)], [(name, cfg)]⟩) := by
  intro ts
  induction ts with
  | nil =>
      intro c hc _
      simp [checkLimitRun, Nat.min_eq_left hc]
  | cons t rest ih =>
      intro c hc hts
      simp only [checkLimitRun]
      rw [checkLimit_entry name cfg c r t (hts t (List.mem_cons_self t rest))]
      by_cases hcm : c < cfg.maxRequests
      · rw [if_pos hcm,
            ih (c + 1) (by omega) (fun u hu => hts u (List.mem_cons_of_mem t hu))]
        refine Prod.ext ?_ ?_
        · simp only [List.length_cons, List.range_succ_eq_map, List.map_cons, List.map_map,
            List.cons.injEq]
          constructor
          · simp [hcm]
          · simp only [List.map_inj_left, Function.comp_apply, decide_eq_decide]
            intro a _
            omega
        · simp only [List.length_cons]
          have harith : c + 1 + rest.length = c + (rest.length + 1) := by omega
          rw [harith]
      · rw [if_neg hcm,
            ih c hc (fun u hu => hts u (List.mem_cons_of_mem t hu))]
        refine Prod.ext ?_ ?_
        · simp only [List.length_cons, List.range_succ_eq_map, List.map_cons, List.map_map,
            List.cons.injEq]
          constructor
          · simp only [decide_eq_decide]
            omega
          · simp only [List.map_inj_left, Function.comp_apply, decide_eq_decide]
            intro a _
            omega
        · simp only [List.length_cons]
          rw [Nat.min_eq_right (by omega), Nat.min_eq_right (by omega)]

/-- Counterexample to claim C3 as stated: for a bucket configured with
`maxRequests = 0`, `checkLimit` should (per the claim) return `true` for
exactly the first 0 calls, i.e. `false` already for the very first call —
but the first-request branch of the source admits unconditionally, so the
first call returns `true`. -/
theorem rateLimiter_zero_max_counterexample :
    (checkLimit "x" 0 ⟨[], [("x", ⟨0, 1000⟩)]⟩).1 = true := by
  rfl

/-- Claim C3 (amended, for `maxRequests ≥ 1`): within one window,
`checkLimit` returns `true` for exactly the first `maxRequests` calls and
`false` for every further call; the first call after the window has expired
returns `true` (the triggering call is admitted), restarts the window with
`count = 1`, and `getRemainingRequests` then reports `maxRequests - 1`. -/
theorem rateLimiter_window_spec (name : String) (m : Nat) (hm : 1 ≤ m) (w : Int)
    (hw : 0 ≤ w) (t0 : Int) (rest : List Int) (hrest : ∀ t ∈ rest, t ≤ t0 + w)
    (t' : Int) (ht' : t0 + w < t') :
    checkLimitRun name (t0 :: rest) ⟨[], [(name, ⟨m, w⟩)]⟩ =
      ((List.range (rest.length + 1)).map (fun i => decide (i < m)),
       ⟨[(name, ⟨min (rest.length + 1) m, t0 + w⟩)], [(name, ⟨m, w⟩)]⟩) ∧
    checkLimit name t'
        ⟨[(name, ⟨min (rest.length + 1) m, t0 + w⟩)], [(name, ⟨m, w⟩)]⟩ =
      (true, ⟨[(name, ⟨1, t' + w⟩)], [(name, ⟨m, w⟩)]⟩) ∧
    getRemainingRequests name t' ⟨[(name, ⟨1, t' + w⟩)], [(name, ⟨m, w⟩)]⟩ =
      ((m - 1 : Nat) : ENat) := by
  refine ⟨?_, ?_, ?_⟩
  · have hfirst : checkLimit name t0 ⟨[], [(name, ⟨m, w⟩)]⟩ =
        (true, ⟨[(name, ⟨1, t0 + w⟩)], [(name, ⟨m, w⟩)]⟩) := by
      simp [checkLimit, List.lookup, setAssoc]
    simp only [checkLimitRun]
    rw [hfirst]
    rw [checkLimitRun_within name ⟨m, w⟩ (t0 + w) rest 1 (by simpa using hm) hrest]
    refine Prod.ext ?_ ?_
    · simp only [List.range_succ_eq_map, List.map_cons, List.map_map, List.cons.injEq]
      constructor
      · simp
        omega
      · simp only [List.map_inj_left, Function.comp_apply, decide_eq_decide]
        intro a _
        omega
    · have harith : 1 + rest.length = rest.length + 1 := by omega
      rw [harith]
  · exact checkLimit_rotate name ⟨m, w⟩ (min (rest.length + 1) m) (t0 + w) t' ht'
  · have hle : t' ≤ t' + w := by omega
    simp [getRemainingRequests, List.lookup, not_lt.mpr hle]

/-- Witness for C3 (amended): bucket `"x"` with `maxRequests = 2`,
`windowMs = 1000`; three immediate calls yield `[true, true, false]`, the
call at t=1001 rotates the window and is admitted, and the remaining budget
is then 1. -/
theorem rateLimiter_window_spec_witness :
    checkLimitRun "x" [0, 0, 0] ⟨[], [("x", ⟨2, 1000⟩)]⟩ =
      ([true, true, false], ⟨[("x", ⟨2, 1000⟩)], [("x", ⟨2, 1000⟩)]⟩) ∧
    checkLimit "x" 1001 ⟨[("x", ⟨2, 1000⟩)], [("x", ⟨2, 1000⟩)]⟩ =
      (true, ⟨[("x", ⟨1, 2001⟩)], [("x", ⟨2, 1000⟩)]⟩) ∧
    getRemainingRequests "x" 1001 ⟨[("x", ⟨1, 2001⟩)], [("x", ⟨2, 1000⟩)]⟩ =
      ((1 : Nat) : ENat) := by
  have h := rateLimiter_window_spec "x" 2 (by norm_num) 1000 (by norm_num) 0 [0, 0]
    (by intro t ht; simp at ht; omega) 1001 (by norm_num)
  refine ⟨?_, ?_, ?_⟩
  · have h1 := h.1
    simpa using h1
  · have h2 := h.2.1
    simpa using h2
  · have h3 := h.2.2
    simpa using h3

/-! ## Cache manager (`src/utils/cache.ts`) -/

/-- An entry of the underlying `node-cache` store: the stored value and its
absolute expiry time in ms, where `0` means the entry never expires. -/
structure NodeCacheEntry (V : Type) where
  value : V
  livetime : Int
deriving Repr, DecidableEq

/-- Model of the `node-cache` dependency as `CacheManager` uses it, from the
library's documented contract: `stdTTL` is the per-cache default TTL in
seconds (`0` = unlimited); `set key value ttl` with `ttl = 0` stores the
entry without expiry, with `ttl > 0` stores it expiring `ttl` seconds from
now, and with `ttl` omitted applies `stdTTL`; `get` treats an entry whose
nonzero expiry time lies strictly in the past as a miss. -/
structure NodeCache (V : Type) where
  stdTTL : Nat
  data : List (String × NodeCacheEntry V)
deriving Repr, DecidableEq

/-- `node-cache` `set` at time `now` in ms; `ttl` in seconds, `none` when
the argument was omitted. -/
def nodeCacheSet {V : Type} (now : Int) (key : String) (v : V) (ttl : Option Nat)
    (c : NodeCache V) : NodeCache V :=
  let livetime : Int :=
    match ttl with
    | some 0 => 0
    | some t => now + (t : Int) * 1000
    | none => if c.stdTTL = 0 then 0 else now + (c.stdTTL : Int) * 1000
  { c with data := setAssoc key ⟨v, livetime⟩ c.data }

/-- `node-cache` `get` at time `now` in ms. -/
def nodeCacheGet {V : Type} (now : Int) (key : String) (c : NodeCache V) : Option V :=
  match c.data.lookup key with
  | none => none
  | some e => if e.livetime ≠ 0 ∧ e.livetime < now then none else some e.value

/-- The `CacheManager` state: its named caches. -/
structure CacheManagerState (V : Type) where
  caches : List (String × NodeCache V)
deriving Repr, DecidableEq

/-- `CacheManager`'s constructor-time caches with the default configured
TTLs in seconds: prices 60, tokenList 3600, blockchainInfo 10,
transactions 300, balances 30. -/
def initialCacheManager (V : Type) : CacheManagerState V :=
  ⟨[("prices", ⟨60, []⟩), ("tokenList", ⟨3600, []⟩), ("blockchainInfo", ⟨10, []⟩),
    ("transactions", ⟨300, []⟩), ("balances", ⟨30, []⟩)]⟩

/-- `CacheManager.set`: throws on an unregistered cache name, otherwise
forwards to the named cache.  The source passes `ttl || 0` as the ttl, so
`node-cache` always receives an explicit value — `0` whenever the caller
gave no (or a zero) override. -/
def cacheManagerSet {V : Type} (cacheName key : String) (v : V) (ttl : Option Nat)
    (now : Int) (st : CacheManagerState V) : Except String (CacheManagerState V) :=
  match st.caches.lookup cacheName with
  | none => .error ("Cache " ++ cacheName ++ " not found")
  | some c =>
      .ok ⟨setAssoc cacheName (nodeCacheSet now key v (some (ttl.getD 0)) c) st.caches⟩

/-- `CacheManager.get`: throws on an unregistered cache name, otherwise
forwards to the named cache. -/
def cacheManagerGet {V : Type} (cacheName key : String) (now : Int)
    (st : CacheManagerState V) : Except String (Option V) :=
  match st.caches.lookup cacheName with
  | none => .error ("Cache " ++ cacheName ++ " not found")
  | some c => .ok (nodeCacheGet now key c)

/-- Claim C4 fails on the code (code bug): `set` with no TTL override does
not apply the cache's configured default TTL.  The `balances` cache defaults
to 30 s, yet after a `set` at t=0 with no override, a `get` at t=31000 ms —
past the default TTL — still returns the value: the source passes `ttl || 0`
to `node-cache`, and a ttl of 0 stores the entry without expiry, where the
claim requires a miss.  An explicit override does behave as claimed: with
`ttl = 1` s the value is returned at t=500 ms and missing at t=1100 ms. -/
theorem cacheManager_default_ttl_ignored :
    (do
      let st ← cacheManagerSet "balances" "k" (7 : Nat) none 0 (initialCacheManager Nat)
      cacheManagerGet "balances" "k" 31000 st) = .ok (some 7) ∧
    (do
      let st ← cacheManagerSet "prices" "p" (9 : Nat) (some 1) 0 (initialCacheManager Nat)
      cacheManagerGet "prices" "p" 500 st) = .ok (some 9) ∧
    (do
      let st ← cacheManagerSet "prices" "p" (9 : Nat) (some 1) 0 (initialCacheManager Nat)
      cacheManagerGet "prices" "p" 1100 st) = .ok none := by
  refine ⟨rfl, rfl, rfl⟩

/-! ## WebSocket provider (`src/api/websocket-provider.ts`) -/

/-- `WebSocketProvider` field default `maxReconnectAttempts = 5`. -/
def wsMaxReconnectAttempts : Nat := 5

/-- `WebSocketProvider` field default `reconnectDelay = 5000` ms. -/
def wsReconnectDelay : Nat := 5000

/-- State of the `WebSocketProvider` singleton.  Physical connections are
identified by a generation number: `provider = some g` means generation `g`
is live.  `logListeners` maps a canonical filter id (`JSON.stringify` of the
filter object, which deduplicates identical filters) to its listener set;
listeners are opaque handles.  `upstreamLogRegs` records on which connection
generation a `provider.on(filter, …)` handler was installed: handlers live
and die with their connection object. -/
structure WSState where
  provider : Option Nat
  nextGen : Nat
  logListeners : List (String × List Nat)
  upstreamLogRegs : List (Nat × String)
  reconnectAttempts : Nat
deriving Repr, DecidableEq

/-- The freshly constructed provider: disconnected, no listeners. -/
def wsInitial : WSState := ⟨none, 0, [], [], 0⟩

/-- `connect()`: a no-op when a provider exists; otherwise opens a fresh
physical connection — a new generation, carrying no upstream handlers — and
resets `reconnectAttempts`. -/
def wsConnect (st : WSState) : WSState :=
  match st.provider with
  | some _ => st
  | none =>
      { st with
          provider := some st.nextGen
          nextGen := st.nextGen + 1
          reconnectAttempts := 0 }

/-- JS `Set.add`: appends the handle unless already present. -/
def addListener (cb : Nat) (l : List Nat) : List Nat :=
  if cb ∈ l then l else l ++ [cb]

/-- `Map.delete` on an association list. -/
def removeAssoc {β : Type} (k : String) : List (String × β) → List (String × β)
  | [] => []
  | (k', v) :: rest => if k' = k then rest else (k', v) :: removeAssoc k rest

/-- `subscribeToLogs(filter, callback)`: connects, then — only if the
canonical filter id is new — creates its listener set and installs one
upstream handler (`provider.on(filter, …)`) on the current connection;
finally adds the callback to the filter's listener set. -/
def wsSubscribeToLogs (filterId : String) (cb : Nat) (st : WSState) : WSState :=
  let st := wsConnect st
  match st.provider with
  | none => st
  | some g =>
      let st :=
        if (st.logListeners.lookup filterId).isSome then st
        else
          { st with
              logListeners := setAssoc filterId [] st.logListeners
              upstreamLogRegs := st.upstreamLogRegs ++ [(g, filterId)] }
      { st with
          logListeners :=
            setAssoc filterId
              (addListener cb ((st.logListeners.lookup filterId).getD []))
              st.logListeners }

/-- `unsubscribeFromLogs(filter, callback)`: removes the callback from the
filter's listener set; when the set becomes empty and a provider is live,
removes the upstream handler from the current connection
(`provider.off(filter)`) and deletes the filter's entry. -/
def wsUnsubscribeFromLogs (filterId : String) (cb : Nat) (st : WSState) : WSState :=
  match st.logListeners.lookup filterId with
  | none => st
  | some listeners =>
      let listeners' := listeners.erase cb
      match st.provider with
      | some g =>
          if listeners' = [] then
            { st with
              upstreamLogRegs := st.upstreamLogRegs.filter (fun p => p ≠ (g, filterId)),
              logListeners := removeAssoc filterId st.logListeners }
          else
            { st with logListeners := setAssoc filterId listeners' st.logListeners }
      | none =>
          { st with logListeners := setAssoc filterId listeners' st.logListeners }

/-- The listeners invoked when the upstream emits a log matching `filterId`:
handlers fire only if one was installed on the currently live connection —
handlers on a destroyed provider object receive nothing, and a fresh
provider starts with none. -/
def wsDeliverLog (filterId : String) (st : WSState) : List Nat :=
  match st.provider with
  | none => []
  | some g =>
      if (g, filterId) ∈ st.upstreamLogRegs then
        (st.logListeners.lookup filterId).getD []
      else []

/-- `handleDisconnect`: the provider is dropped; while attempts remain the
counter increments and `connect` is scheduled to run after
`reconnectDelay * reconnectAttempts` ms (the value after the increment).
Returns the new state together with the scheduled delay (`none` when the
maximum was reached and the provider gives up). -/
def wsHandleDisconnect (st : WSState) : WSState × Option Nat :=
  let st' : WSState := { st with provider := none }
  if st'.reconnectAttempts < wsMaxReconnectAttempts then
    ({ st' with reconnectAttempts := st'.reconnectAttempts + 1 },
     some (wsReconnectDelay * (st'.reconnectAttempts + 1)))
  else
    (st', none)

/-- A disconnect followed by the scheduled reconnect succeeding. -/
def wsReconnectCycle (st : WSState) : WSState :=
  wsConnect (wsHandleDisconnect st).1

/-- Claim C7: for every log filter, two `subscribeToLogs` calls with the
same filter produce exactly one upstream registration; unsubscribing one of
the two listeners leaves the registration active and a matching event is
still delivered to the remaining listener; unsubscribing the last listener
tears down the upstream registration for that exact filter and removes its
entry. -/
theorem logSubscription_dedup_spec (f : String) (a b : Nat) (hab : a ≠ b) :
    (wsSubscribeToLogs f b (wsSubscribeToLogs f a wsInitial)).upstreamLogRegs = [(0, f)] ∧
    wsDeliverLog f (wsSubscribeToLogs f b (wsSubscribeToLogs f a wsInitial)) = [a, b] ∧
    (wsUnsubscribeFromLogs f a
        (wsSubscribeToLogs f b (wsSubscribeToLogs f a wsInitial))).upstreamLogRegs =
      [(0, f)] ∧
    wsDeliverLog f (wsUnsubscribeFromLogs f a
        (wsSubscribeToLogs f b (wsSubscribeToLogs f a wsInitial))) = [b] ∧
    (wsUnsubscribeFromLogs f b (wsUnsubscribeFromLogs f a
        (wsSubscribeToLogs f b (wsSubscribeToLogs f a wsInitial)))).upstreamLogRegs = [] ∧
    ((wsUnsubscribeFromLogs f b (wsUnsubscribeFromLogs f a
        (wsSubscribeToLogs f b
          (wsSubscribeToLogs f a wsInitial)))).logListeners.lookup f) = none := by
  have hba : ¬ b = a := fun h => hab h.symm
  have hs1 : wsSubscribeToLogs f a wsInitial =
      ⟨some 0, 1, [(f, [a])], [(0, f)], 0⟩ := by
    simp [wsSubscribeToLogs, wsConnect, wsInitial, setAssoc, addListener, List.lookup]
  have hs2 : wsSubscribeToLogs f b (wsSubscribeToLogs f a wsInitial) =
      ⟨some 0, 1, [(f, [a, b])], [(0, f)], 0⟩ := by
    rw [hs1]
    simp [wsSubscribeToLogs, wsConnect, setAssoc, addListener, List.lookup, hba]
  have hs3 : wsUnsubscribeFromLogs f a
      (wsSubscribeToLogs f b (wsSubscribeToLogs f a wsInitial)) =
      ⟨some 0, 1, [(f, [b])], [(0, f)], 0⟩ := by
    rw [hs2]
    simp [wsUnsubscribeFromLogs, setAssoc, List.lookup, List.erase_cons, hba]
  have hs4 : wsUnsubscribeFromLogs f b (wsUnsubscribeFromLogs f a
      (wsSubscribeToLogs f b (wsSubscribeToLogs f a wsInitial))) =
      ⟨some 0, 1, [], [], 0⟩ := by
    rw [hs3]
    simp [wsUnsubscribeFromLogs, removeAssoc, List.lookup, List.erase_cons]
  refine ⟨?_, ?_, ?_, ?_, ?_, ?_⟩
  · rw [hs2]
  · rw [hs2]
    simp [wsDeliverLog, List.lookup]
  · rw [hs3]
  · rw [hs3]
    simp [wsDeliverLog, List.lookup]
  · rw [hs4]
  · rw [hs4]
    simp [List.lookup]

/-- Witness for C7: the scenario with filter id `"\x7b\x7d"` and listeners
0 and 1. -/
theorem logSubscription_dedup_spec_witness :
    (wsSubscribeToLogs "\x7b\x7d" 1
        (wsSubscribeToLogs "\x7b\x7d" 0 wsInitial)).upstreamLogRegs =
      [(0, "\x7b\x7d")] ∧
    wsDeliverLog "\x7b\x7d" (wsUnsubscribeFromLogs "\x7b\x7d" 0
        (wsSubscribeToLogs "\x7b\x7d" 1
          (wsSubscribeToLogs "\x7b\x7d" 0 wsInitial))) = [1] := by
  have h := logSubscription_dedup_spec "\x7b\x7d" 0 1 (by norm_num)
  exact ⟨h.1, h.2.2.2.1⟩

/-- Claim C8 fails on the code (code bug): `connect()` re-establishes no
subscriptions.  After a log subscription, a disconnect, and the scheduled
successful reconnect, the listener is still registered in `logListeners`,
but the new physical connection carries no upstream handler for the filter,
so a matching upstream log event is delivered to no listener at all. -/
theorem wsReconnect_drops_subscriptions :
    (wsReconnectCycle (wsSubscribeToLogs "\x7b\x7d" 0 wsInitial)).provider = some 1 ∧
    ((wsReconnectCycle
        (wsSubscribeToLogs "\x7b\x7d" 0 wsInitial)).logListeners.lookup "\x7b\x7d") =
      some [0] ∧
    wsDeliverLog "\x7b\x7d" (wsReconnectCycle (wsSubscribeToLogs "\x7b\x7d" 0 wsInitial)) =
      [] := by
  refine ⟨rfl, rfl, rfl⟩

/-- Counterexample to claim C9 as stated: the delays `handleDisconnect`
schedules for attempts 1 through 5 are `5000 * attempt` — 5000, 10000,
15000, 20000, 25000 ms — and no choice of base delay and ceiling makes them
equal `min (base * 2 ^ attempt) ceiling`: the code backs off linearly, not
exponentially. -/
theorem wsReconnectDelay_not_exponential :
    ¬ ∃ base ceiling : Nat, ∀ a : Nat, 1 ≤ a → a ≤ wsMaxReconnectAttempts →
        (wsHandleDisconnect { wsInitial with reconnectAttempts := a - 1 }).2 =
          some (min (base * 2 ^ a) ceiling) := by
  rintro ⟨base, ceiling, h⟩
  have h2 := h 2 (by norm_num) (by decide)
  have h3 := h 3 (by norm_num) (by decide)
  have h4 := h 4 (by norm_num) (by decide)
  norm_num [wsHandleDisconnect, wsInitial, wsMaxReconnectAttempts, wsReconnectDelay]
    at h2 h3 h4
  omega

/-- Claim C9 (amended): while attempts remain, `handleDisconnect` increments
the attempt counter and schedules the reconnect after
`reconnectDelay * reconnectAttempts` ms — linear backoff, 5000 ms times the
attempt number, with no exponential growth and no ceiling; once
`maxReconnectAttempts` attempts have been used, no reconnect is scheduled. -/
theorem wsReconnectDelay_linear (st : WSState)
    (h : st.reconnectAttempts < wsMaxReconnectAttempts) :
    (wsHandleDisconnect st).2 = some (wsReconnectDelay * (st.reconnectAttempts + 1)) ∧
    (wsHandleDisconnect st).1.reconnectAttempts = st.reconnectAttempts + 1 ∧
    (wsHandleDisconnect st).1.provider = none ∧
    (∀ st2 : WSState, wsMaxReconnectAttempts ≤ st2.reconnectAttempts →
      (wsHandleDisconnect st2).2 = none) := by
  refine ⟨?_, ?_, ?_, ?_⟩
  · simp [wsHandleDisconnect, h]
  · simp [wsHandleDisconnect, h]
  · simp [wsHandleDisconnect, h]
  · intro st2 h2
    have hfull : ¬ st2.reconnectAttempts < wsMaxReconnectAttempts := by omega
    simp [wsHandleDisconnect, hfull]

/-- Witness for C9 (amended): the first disconnect schedules the reconnect
after 5000 ms and leaves the counter at 1. -/
theorem wsReconnectDelay_linear_witness :
    (wsHandleDisconnect wsInitial).2 = some (wsReconnectDelay * (0 + 1)) ∧
    (wsHandleDisconnect wsInitial).1.reconnectAttempts = 0 + 1 := by
  have h := wsReconnectDelay_linear wsInitial (by norm_num [wsInitial, wsMaxReconnectAttempts])
  exact ⟨h.1, h.2.1⟩
